import Mathlib

/-!
Shallow embedding of the ssts stress-testing engine core, written from the Go
sources: the safety monitor (internal/safety/monitor.go), the metrics
collector (internal/metrics), the test orchestrator (internal/core), the
plugin manager and the three workload plugins (internal/plugins).

Host readings, thresholds and timestamps are modelled as exact rationals
(Go float64 comparisons at the concrete inputs used here are exact).
Timestamps are seconds; durations are seconds.  Fallible host accessors are
modelled as Option-valued readings.  Formatted message strings are modelled
as inductive payloads carrying the same arguments the Go fmt.Sprintf calls
receive.
-/

namespace SSTS

/-- Severity levels for violations (monitor.go `Severity`). -/
inductive Severity where
  | info
  | warning
  | error
  | critical
deriving DecidableEq, Repr

/-- Violation / alert message payloads: one constructor per distinct
fmt.Sprintf format string in monitor.go, carrying the formatted arguments. -/
inductive VMessage where
  | cpuExceeds (usage limit : ℚ)
  | memoryExceeds (usage limit : ℚ)
  | diskExceeds (usage limit : ℚ)
  | networkExceeds (usage limit : ℚ)
  | temperatureTooHigh (temp : ℚ)
  | highMemoryPressure
deriving DecidableEq, Repr

/-- monitor.go `Violation`. -/
structure Violation where
  vtype : String
  currentValue : ℚ
  limit : ℚ
  severity : Severity
  message : VMessage
  timestamp : ℚ
  critical : Bool
deriving DecidableEq, Repr

/-- pkg/models `SafetyLimits`. -/
structure SafetyLimits where
  maxCPUPercent : ℚ
  maxMemoryPercent : ℚ
  maxDiskPercent : ℚ
  maxNetworkMbps : ℚ
deriving DecidableEq, Repr

/-- monitor.go `Config` (durations in seconds). -/
structure SafetyConfig where
  checkInterval : ℚ
  alertThreshold : ℚ
  emergencyThreshold : ℚ
  autoStopEnabled : Bool
  rampUpEnabled : Bool
  rampUpDuration : ℚ
  rampUpSteps : Nat
  cooldownPeriod : ℚ
  maxViolationsPerMin : Nat
deriving DecidableEq, Repr

/-- Reasons sent on the monitor's emergency-stop channel: one constructor per
fmt.Sprintf call site feeding `sendEmergencyStop`, carrying its arguments. -/
inductive StopReason where
  | criticalTemperature (temp : ℚ)
  | tooManyViolations (n : Nat)
deriving DecidableEq, Repr

/-- One round of host readings from the `SystemMonitor` probe; `none` models
the accessor returning a non-nil error. -/
structure ProbeReadings where
  cpu : Option ℚ
  memory : Option ℚ
  disk : Option ℚ
  network : Option ℚ
  temperature : Option ℚ
deriving DecidableEq, Repr

/-- monitor.go `recordViolation`: append the violation, then keep only the
entries of the last hour (`Timestamp.After(now.Add(-1h))`, strict). -/
def recordViolation (now : ℚ) (violations : List Violation) (v : Violation) :
    List Violation :=
  (violations ++ [v]).filter (fun w => decide (now - 3600 < w.timestamp))

/-- monitor.go `getRecentViolations`: entries strictly newer than
`now - duration`. -/
def getRecentViolations (duration now : ℚ) (violations : List Violation) :
    List Violation :=
  violations.filter (fun w => decide (now - duration < w.timestamp))

/-- The CPU violation built in `CheckSafetyLimits` when `cpuUsage > limit`. -/
def cpuViolation (cfg : SafetyConfig) (now usage limit : ℚ) : Violation :=
  { vtype := "cpu"
    currentValue := usage
    limit := limit
    severity :=
      if usage > cfg.emergencyThreshold then Severity.critical
      else if usage > cfg.alertThreshold then Severity.error
      else Severity.warning
    message := VMessage.cpuExceeds usage limit
    timestamp := now
    critical := decide (usage > cfg.emergencyThreshold) }

/-- The memory violation built in `CheckSafetyLimits` when `memUsage > limit`. -/
def memoryViolation (cfg : SafetyConfig) (now usage limit : ℚ) : Violation :=
  { vtype := "memory"
    currentValue := usage
    limit := limit
    severity :=
      if usage > cfg.emergencyThreshold then Severity.critical
      else if usage > cfg.alertThreshold then Severity.error
      else Severity.warning
    message := VMessage.memoryExceeds usage limit
    timestamp := now
    critical := decide (usage > cfg.emergencyThreshold) }

/-- The disk violation built in `CheckSafetyLimits` when `diskUsage > limit`. -/
def diskViolation (cfg : SafetyConfig) (now usage limit : ℚ) : Violation :=
  { vtype := "disk"
    currentValue := usage
    limit := limit
    severity :=
      if usage > cfg.emergencyThreshold then Severity.critical
      else if usage > cfg.alertThreshold then Severity.error
      else Severity.warning
    message := VMessage.diskExceeds usage limit
    timestamp := now
    critical := decide (usage > cfg.emergencyThreshold) }

/-- The network violation built in `CheckSafetyLimits` when
`netUsage > limit`; never critical, severity error only above twice the
limit. -/
def networkViolation (now usage limit : ℚ) : Violation :=
  { vtype := "network"
    currentValue := usage
    limit := limit
    severity :=
      if usage > limit * 2 then Severity.error else Severity.warning
    message := VMessage.networkExceeds usage limit
    timestamp := now
    critical := false }

/-- Network check, the last arm of `CheckSafetyLimits`. -/
def checkNetworkLimit (_cfg : SafetyConfig) (limits : SafetyLimits)
    (pr : ProbeReadings) (now : ℚ) (violations : List Violation) :
    Option Violation × List Violation :=
  match pr.network with
  | some netUsage =>
      if netUsage > limits.maxNetworkMbps then
        let v := networkViolation now netUsage limits.maxNetworkMbps
        (some v, recordViolation now violations v)
      else (none, violations)
  | none => (none, violations)

/-- Disk check falling through to the network check. -/
def checkDiskLimit (cfg : SafetyConfig) (limits : SafetyLimits)
    (pr : ProbeReadings) (now : ℚ) (violations : List Violation) :
    Option Violation × List Violation :=
  match pr.disk with
  | some diskUsage =>
      if diskUsage > limits.maxDiskPercent then
        let v := diskViolation cfg now diskUsage limits.maxDiskPercent
        (some v, recordViolation now violations v)
      else checkNetworkLimit cfg limits pr now violations
  | none => checkNetworkLimit cfg limits pr now violations

/-- Memory check falling through to the disk check. -/
def checkMemoryLimit (cfg : SafetyConfig) (limits : SafetyLimits)
    (pr : ProbeReadings) (now : ℚ) (violations : List Violation) :
    Option Violation × List Violation :=
  match pr.memory with
  | some memUsage =>
      if memUsage > limits.maxMemoryPercent then
        let v := memoryViolation cfg now memUsage limits.maxMemoryPercent
        (some v, recordViolation now violations v)
      else checkDiskLimit cfg limits pr now violations
  | none => checkDiskLimit cfg limits pr now violations

/-- monitor.go `Monitor.CheckSafetyLimits`: check CPU, then memory, then disk,
then network; the first reading that both succeeds and exceeds its limit is
recorded (via `recordViolation`) and returned; the rest of the call is
skipped.  A reading whose accessor errors is skipped.  Returns the violation
(if any) and the updated violation ring. -/
def checkSafetyLimits (cfg : SafetyConfig) (limits : SafetyLimits)
    (pr : ProbeReadings) (now : ℚ) (violations : List Violation) :
    Option Violation × List Violation :=
  match pr.cpu with
  | some cpuUsage =>
      if cpuUsage > limits.maxCPUPercent then
        let v := cpuViolation cfg now cpuUsage limits.maxCPUPercent
        (some v, recordViolation now violations v)
      else checkMemoryLimit cfg limits pr now violations
  | none => checkMemoryLimit cfg limits pr now violations

/-- The temperature violation built in `performSafetyCheck` when
`temp > 85.0`: severity is always Critical; the `Critical` flag only when
`temp > 90.0`. -/
def temperatureViolation (now temp : ℚ) : Violation :=
  { vtype := "temperature"
    currentValue := temp
    limit := 85
    severity := Severity.critical
    message := VMessage.temperatureTooHigh temp
    timestamp := now
    critical := decide (temp > 90) }

/-- The memory-pressure violation built in `performSafetyCheck`. -/
def memoryPressureViolation (now : ℚ) (heapAlloc sys : Nat) : Violation :=
  { vtype := "memory_pressure"
    currentValue := (heapAlloc : ℚ) / (sys : ℚ) * 100
    limit := 50
    severity := Severity.warning
    message := VMessage.highMemoryPressure
    timestamp := now
    critical := false }

/-- The temperature step of `performSafetyCheck`: when the probe reading
succeeds and exceeds 85.0, record the temperature violation and, when its
`Critical` flag is set, request an emergency stop with the
temperature-specific reason. -/
def temperaturePhase (now : ℚ) (temp : Option ℚ)
    (violations : List Violation) : List Violation × List StopReason :=
  match temp with
  | some t =>
      if t > 85 then
        let v := temperatureViolation now t
        (recordViolation now violations v,
          if v.critical then [StopReason.criticalTemperature t] else [])
      else (violations, [])
  | none => (violations, [])

/-- monitor.go `Monitor.performSafetyCheck`, one tick: temperature check,
then the violation-rate gate over the last minute, then the runtime
memory-pressure check.  `temp` is the probe's temperature reading; `memSys`
and `heapAlloc` are `runtime.MemStats.Sys` and `.HeapAlloc`.  Returns the
updated violation ring and the emergency-stop requests made during the tick,
in order. -/
def performSafetyCheck (cfg : SafetyConfig) (now : ℚ) (temp : Option ℚ)
    (memSys heapAlloc : Nat) (violations : List Violation) :
    List Violation × List StopReason :=
  let tempResult := temperaturePhase now temp violations
  let recent := getRecentViolations 60 now tempResult.1
  let rateStops :=
    if recent.length > cfg.maxViolationsPerMin then
      [StopReason.tooManyViolations recent.length]
    else []
  let finalViolations :=
    if memSys > 2 * 1024 * 1024 * 1024 then
      if heapAlloc > memSys / 2 then
        recordViolation now tempResult.1 (memoryPressureViolation now heapAlloc memSys)
      else tempResult.1
    else tempResult.1
  (finalViolations, tempResult.2 ++ rateStops)

/-! ## Metrics collector (internal/metrics collector.go) -/

/-- Result of a successful `mem.VirtualMemory()` call. -/
structure MemStatReading where
  total : Nat
  used : Nat
  available : Nat
  usedPercent : ℚ
deriving DecidableEq, Repr

/-- Result of a successful `disk.Usage("/")` call. -/
structure DiskStatReading where
  total : Nat
  used : Nat
  free : Nat
  usedPercent : ℚ
deriving DecidableEq, Repr

/-- Result of a successful `net.IOCounters(false)` call (first element). -/
structure NetStatReading where
  bytesSent : Nat
  bytesRecv : Nat
deriving DecidableEq, Repr

/-- One collection tick's accessor results; `none` models the accessor
returning an error (or, for the slice-valued accessors, an empty slice). -/
structure CollectorProbe where
  cpuPercent : Option ℚ
  cpuCounts : Option Nat
  virtualMemory : Option MemStatReading
  diskUsage : Option DiskStatReading
  netCounters : Option NetStatReading
deriving DecidableEq, Repr

/-- The metrics package's `SystemMetrics` struct (nested anonymous structs
flattened field by field). -/
structure CollectorSystemMetrics where
  timestamp : ℚ
  cpuUsage : ℚ
  cpuCores : Nat
  memoryTotal : Nat
  memoryUsed : Nat
  memoryAvailable : Nat
  memoryUsage : ℚ
  diskTotal : Nat
  diskUsed : Nat
  diskFree : Nat
  diskUsage : ℚ
  networkBytesSent : Nat
  networkBytesRecv : Nat
deriving DecidableEq, Repr

/-- The zero value of `SystemMetrics` (Go `var metrics SystemMetrics`). -/
def zeroSystemMetrics : CollectorSystemMetrics :=
  { timestamp := 0, cpuUsage := 0, cpuCores := 0
    memoryTotal := 0, memoryUsed := 0, memoryAvailable := 0, memoryUsage := 0
    diskTotal := 0, diskUsed := 0, diskFree := 0, diskUsage := 0
    networkBytesSent := 0, networkBytesRecv := 0 }

/-- The collector's mutable state: the cached latest snapshot. -/
structure Collector where
  metrics : CollectorSystemMetrics
deriving DecidableEq, Repr

/-- collector.go `Collector.GetMetrics`: return the cached snapshot. -/
def getMetrics (c : Collector) : CollectorSystemMetrics :=
  c.metrics

/-- collector.go `Collector.collectSystemMetrics`, one tick: start from a
fresh zero-valued `SystemMetrics`, stamp it with the current time, fill in
each field group whose accessor succeeded, and store the result as the new
cached snapshot (unconditionally). -/
def collectSystemMetrics (now : ℚ) (pr : CollectorProbe) (c : Collector) :
    Collector :=
  let metrics0 := { zeroSystemMetrics with timestamp := now }
  let metrics1 :=
    match pr.cpuPercent with
    | some usage => { metrics0 with cpuUsage := usage }
    | none => metrics0
  let metrics2 :=
    match pr.cpuCounts with
    | some cores => { metrics1 with cpuCores := cores }
    | none => metrics1
  let metrics3 :=
    match pr.virtualMemory with
    | some memStat =>
        { metrics2 with
          memoryTotal := memStat.total
          memoryUsed := memStat.used
          memoryAvailable := memStat.available
          memoryUsage := memStat.usedPercent }
    | none => metrics2
  let metrics4 :=
    match pr.diskUsage with
    | some diskStat =>
        { metrics3 with
          diskTotal := diskStat.total
          diskUsed := diskStat.used
          diskFree := diskStat.free
          diskUsage := diskStat.usedPercent }
    | none => metrics3
  let metrics5 :=
    match pr.netCounters with
    | some netStat =>
        { metrics4 with
          networkBytesSent := netStat.bytesSent
          networkBytesRecv := netStat.bytesRecv }
    | none => metrics4
  { c with metrics := metrics5 }

/-- Direct description of the snapshot a tick builds: every field comes from
this tick's reading alone, with the Go zero value when the accessor failed.
Used to state the amended form of the collector claim. -/
def freshSnapshot (now : ℚ) (pr : CollectorProbe) : CollectorSystemMetrics :=
  { timestamp := now
    cpuUsage := (pr.cpuPercent.map id).getD 0
    cpuCores := (pr.cpuCounts.map id).getD 0
    memoryTotal := (pr.virtualMemory.map (fun s => s.total)).getD 0
    memoryUsed := (pr.virtualMemory.map (fun s => s.used)).getD 0
    memoryAvailable := (pr.virtualMemory.map (fun s => s.available)).getD 0
    memoryUsage := (pr.virtualMemory.map (fun s => s.usedPercent)).getD 0
    diskTotal := (pr.diskUsage.map (fun s => s.total)).getD 0
    diskUsed := (pr.diskUsage.map (fun s => s.used)).getD 0
    diskFree := (pr.diskUsage.map (fun s => s.free)).getD 0
    diskUsage := (pr.diskUsage.map (fun s => s.usedPercent)).getD 0
    networkBytesSent := (pr.netCounters.map (fun s => s.bytesSent)).getD 0
    networkBytesRecv := (pr.netCounters.map (fun s => s.bytesRecv)).getD 0 }

/-! ## Test orchestrator (internal/core orchestrator.go) -/

/-- pkg/models `ExecutionStatus`. -/
inductive ExecutionStatus where
  | pending
  | running
  | completed
  | failed
  | stopped
deriving DecidableEq, Repr

/-- The state of a Go `context.Context`'s `Err()` result. -/
inductive CtxErr where
  | noErr
  | canceled
  | deadlineExceeded
deriving DecidableEq, Repr

/-- The error string `ctx.Err()` renders to, as the plugins return it. -/
def ctxErrMessage : CtxErr → Option String
  | CtxErr.noErr => none
  | CtxErr.canceled => some "context canceled"
  | CtxErr.deadlineExceeded => some "context deadline exceeded"

/-- The orchestrator's per-execution record (`TestExecution` fields the
lifecycle mutates). `cancelRequested` models `Cancel()` having been called on
the execution's context. -/
structure ExecutionState where
  status : ExecutionStatus
  errorMessage : Option String
  endTimeSet : Bool
  cancelRequested : Bool
deriving DecidableEq, Repr

/-- A fresh execution as `StartTest` registers it. -/
def newExecution : ExecutionState :=
  { status := ExecutionStatus.pending
    errorMessage := none
    endTimeSet := false
    cancelRequested := false }

/-- orchestrator.go `finishTestWithError`: status Failed, the error rendered
as message, end time recorded. -/
def finishTestWithError (e : ExecutionState) (msg : String) : ExecutionState :=
  { e with
    status := ExecutionStatus.failed
    errorMessage := some msg
    endTimeSet := true }

/-- orchestrator.go `finishTestWithStatus`: set the given status and record
the end time. -/
def finishTestWithStatus (e : ExecutionState) (s : ExecutionStatus) :
    ExecutionState :=
  { e with status := s, endTimeSet := true }

/-- Which plugin lifecycle methods a run invoked, in order. -/
inductive PluginCall where
  | initializeCall
  | executeCall
  | cleanupCall
deriving DecidableEq, Repr

/-- plugin.go `PluginManager.ExecutePlugin`: look the plugin up, call
`Initialize` and return its error if non-nil (the deferred `Cleanup` is
installed only after that check), otherwise run `Execute` (with the deferred
`Cleanup` after it).  `registered` is whether the name is in the manager's
map; `initErr`/`execErr` are the plugin's results.  Returns the error and the
lifecycle calls made. -/
def executePlugin (registered : Bool) (initErr execErr : Option String) :
    Option String × List PluginCall :=
  if registered = false then (some "plugin not found", [])
  else
    match initErr with
    | some e => (some e, [PluginCall.initializeCall])
    | none =>
        (execErr,
          [PluginCall.initializeCall, PluginCall.executeCall,
            PluginCall.cleanupCall])

/-- The tail of orchestrator.go `executeTest`: after `ExecutePlugin` returns,
a non-nil error finishes the test as Stopped when the execution context's
error is `context.Canceled`, otherwise as Failed with that error; a nil error
finishes it as Completed. -/
def executeTestFinish (e : ExecutionState) (pluginErr : Option String)
    (ctxErr : CtxErr) : ExecutionState :=
  match pluginErr with
  | some msg =>
      if ctxErr = CtxErr.canceled then
        finishTestWithStatus e ExecutionStatus.stopped
      else finishTestWithError e msg
  | none => finishTestWithStatus e ExecutionStatus.completed

/-- orchestrator.go `executeTest` sequenced with `ExecutePlugin` (config
parse succeeding): set Running, run the plugin, finish per
`executeTestFinish`.  `ctxErr` is the execution context's `Err()` when the
plugin returns. -/
def executeTestRun (e : ExecutionState) (registered : Bool)
    (initErr execErr : Option String) (ctxErr : CtxErr) :
    ExecutionState × List PluginCall :=
  let e1 := { e with status := ExecutionStatus.running }
  let res := executePlugin registered initErr execErr
  (executeTestFinish e1 res.1 ctxErr, res.2)

/-- cpu_stress.go `executeFullIntensity`, observed at the moment its `select`
unblocks: the execution context (created at `ctxCreated` with timeout
`duration`) expires at `ctxCreated + duration`, the plugin's own
`time.After(params.Duration)` (started at `goStarted`, when the goroutine
reached the select) fires at `goStarted + duration`.  Whichever is strictly
earlier decides the return value: the context's rendered error, or nil. -/
def executeFullIntensityAtDeadline (ctxCreated goStarted duration : ℚ) :
    Option String :=
  if ctxCreated + duration < goStarted + duration then
    ctxErrMessage CtxErr.deadlineExceeded
  else none

/-- Result of orchestrator.go `StopTest` (the two `fmt.Errorf` sites and the
nil return). -/
inductive StopTestResult where
  | ok
  | notFound
  | notRunning (s : ExecutionStatus)
deriving DecidableEq, Repr

/-- The orchestrator's executions map, as an association list. -/
structure Orchestrator where
  executions : List (String × ExecutionState)
deriving DecidableEq, Repr

/-- Association-list lookup backing `findExecution`. -/
def lookupExecution : List (String × ExecutionState) → String →
    Option ExecutionState
  | [], _ => none
  | p :: rest, id => if p.1 = id then some p.2 else lookupExecution rest id

/-- Map lookup `to.executions[executionID]`. -/
def findExecution (o : Orchestrator) (id : String) : Option ExecutionState :=
  lookupExecution o.executions id

/-- Association-list update backing `setExecution`. -/
def setExecutionList : List (String × ExecutionState) → String →
    ExecutionState → List (String × ExecutionState)
  | [], _, _ => []
  | p :: rest, id, e =>
      if p.1 = id then (p.1, e) :: setExecutionList rest id e
      else p :: setExecutionList rest id e

/-- Replace the entry for `id` (the Go code mutates the pointed-to record). -/
def setExecution (o : Orchestrator) (id : String) (e : ExecutionState) :
    Orchestrator :=
  { executions := setExecutionList o.executions id e }

/-- orchestrator.go `StopTest`: unknown id fails with the not-found error;
an execution whose status is not Running fails with the not-running error;
otherwise the execution's context is cancelled and nil is returned. -/
def stopTest (o : Orchestrator) (id : String) :
    StopTestResult × Orchestrator :=
  match findExecution o id with
  | none => (StopTestResult.notFound, o)
  | some e =>
      if e.status ≠ ExecutionStatus.running then
        (StopTestResult.notRunning e.status, o)
      else
        (StopTestResult.ok,
          setExecution o id { e with cancelRequested := true })

/-- The workload task observing a `StopTest` cancellation: the plugin's
`Execute` returns `ctx.Err() = context.Canceled`, and `executeTest` finishes
the execution via `executeTestFinish` (hence Stopped).  A no-op when no
cancellation is pending or the execution is not Running. -/
def workloadObservesCancel (o : Orchestrator) (id : String) : Orchestrator :=
  match findExecution o id with
  | some e =>
      if e.cancelRequested = true ∧ e.status = ExecutionStatus.running then
        setExecution o id
          (executeTestFinish e (ctxErrMessage CtxErr.canceled) CtxErr.canceled)
      else o
  | none => o

/-! ## Workload plugins (internal/plugins) -/

/-- A Go channel as far as `close` is concerned. -/
structure GoChan where
  closed : Bool
deriving DecidableEq, Repr

/-- Go `close(ch)`: closing an already-closed channel is a runtime fault
("close of closed channel" run-time panic); otherwise the channel becomes
closed. -/
def closeChan (ch : GoChan) : Except String GoChan :=
  if ch.closed then Except.error "close of closed channel"
  else Except.ok { ch with closed := true }

/-- The `CPUStressPlugin` state `Cleanup` can touch (its only action is
closing `stopChan`; config, metrics and counters are untouched by it). -/
structure CPUStressPluginState where
  stopChan : GoChan
deriving DecidableEq, Repr

/-- cpu_stress.go `NewCPUStressPlugin`: fresh open `stopChan`. -/
def newCPUStressPlugin : CPUStressPluginState :=
  { stopChan := { closed := false } }

/-- cpu_stress.go `CPUStressPlugin.Cleanup`: `close(c.stopChan)` then return
nil.  A Go panic is modelled as the `Except.error` case. -/
def cpuCleanup (s : CPUStressPluginState) : Except String CPUStressPluginState :=
  match closeChan s.stopChan with
  | Except.error msg => Except.error msg
  | Except.ok ch => Except.ok { s with stopChan := ch }

/-- The `MemoryStressPlugin` state `Cleanup` can touch: `stopChan` and the
allocations slice (each allocation recorded by its byte length). -/
structure MemoryStressPluginState where
  stopChan : GoChan
  allocations : List Nat
deriving DecidableEq, Repr

/-- memory_stress.go `NewMemoryStressPlugin`: fresh open `stopChan`, no
allocations. -/
def newMemoryStressPlugin : MemoryStressPluginState :=
  { stopChan := { closed := false }, allocations := [] }

/-- memory_stress.go `MemoryStressPlugin.Cleanup`: `close(m.stopChan)`, clear
the allocations slice, return nil. -/
def memoryCleanup (s : MemoryStressPluginState) :
    Except String MemoryStressPluginState :=
  match closeChan s.stopChan with
  | Except.error msg => Except.error msg
  | Except.ok ch => Except.ok { s with stopChan := ch, allocations := [] }

/-- memory_stress.go `Execute`: `numChunks := allocSizeMB / chunkSizeMB`
(Go integer division), bumped to 1 when not positive.  Sizes are the
megabyte counts `parseMemorySize` produced. -/
def numChunksFor (allocSizeMB chunkSizeMB : Nat) : Nat :=
  let numChunks := allocSizeMB / chunkSizeMB
  if numChunks ≤ 0 then 1 else numChunks

/-- The allocation loop of memory_stress.go `allocateMemory` run to
completion (no cancellation): one chunk of `chunkBytes` bytes appended per
iteration. -/
def allocLoop : Nat → Nat → List Nat → List Nat
  | 0, _, allocations => allocations
  | Nat.succ k, chunkBytes, allocations =>
      allocLoop k chunkBytes (allocations ++ [chunkBytes])

/-- The allocations produced by a memory-stress `Execute` whose allocation
phase runs to completion: `numChunks` chunks of
`chunkSizeMB * 1024 * 1024` bytes each. -/
def memoryExecuteAllocations (allocSizeMB chunkSizeMB : Nat) : List Nat :=
  let chunkBytes := chunkSizeMB * 1024 * 1024
  allocLoop (numChunksFor allocSizeMB chunkSizeMB) chunkBytes []

/-- Ceiling division, the chunk count the spec's words prescribe. -/
def ceilDiv (a c : Nat) : Nat :=
  (a + c - 1) / c

/-- io_stress.go `Initialize`, the read/write-ratio default: a configured
ratio that is not positive is replaced by 0.5. -/
def initializeReadWriteRat (configRat : ℚ) : ℚ :=
  if configRat ≤ 0 then 1 / 2 else configRat

/-- The two I/O operation kinds a worker can issue. -/
inductive IOOperationKind where
  | read
  | write
deriving DecidableEq, Repr

/-- io_stress.go `performIOOperation`, the operation-selection part: in mixed
mode a read is chosen when `float64(time.Now().UnixNano()%1000)/1000.0` is
strictly below the effective ratio, otherwise a write; a non-mixed operation
string is used as is, and an unrecognised one is the error return. -/
def performIOOperationKind (operations : String) (rwRat : ℚ)
    (nowUnixNano : Nat) : Option IOOperationKind :=
  let operation :=
    if operations = "mixed" then
      if ((nowUnixNano % 1000 : Nat) : ℚ) / 1000 < rwRat then "read"
      else "write"
    else operations
  if operation = "read" then some IOOperationKind.read
  else if operation = "write" then some IOOperationKind.write
  else none

/-! ## Claim-side selector for the `CheckSafetyLimits` priority claim -/

/-- Whether an optional reading breaches a limit, tagged with the metric
name. -/
def breachName (reading : Option ℚ) (limit : ℚ) (nm : String) :
    Option String :=
  match reading with
  | some u => if u > limit then some nm else none
  | none => none

/-- The first of CPU, memory, disk and network, in that fixed priority
order, whose probe read succeeded and whose reading exceeds its configured
limit; temperature is not consulted.  Stated from the claim's words, to be
compared with `checkSafetyLimits`. -/
def firstBreachName (limits : SafetyLimits) (pr : ProbeReadings) :
    Option String :=
  match breachName pr.cpu limits.maxCPUPercent "cpu" with
  | some s => some s
  | none =>
      match breachName pr.memory limits.maxMemoryPercent "memory" with
      | some s => some s
      | none =>
          match breachName pr.disk limits.maxDiskPercent "disk" with
          | some s => some s
          | none => breachName pr.network limits.maxNetworkMbps "network"

/-! ## Concrete inputs used by counterexamples and witnesses -/

/-- The configuration `NewMonitor` produces from a zero-valued `Config`:
every numeric default filled in (booleans keep their zero value). -/
def defaultSafetyConfig : SafetyConfig :=
  { checkInterval := 1
    alertThreshold := 85
    emergencyThreshold := 95
    autoStopEnabled := false
    rampUpEnabled := false
    rampUpDuration := 30
    rampUpSteps := 10
    cooldownPeriod := 60
    maxViolationsPerMin := 5 }

/-- A Warning-severity CPU violation recorded at time 100 (as
`CheckSafetyLimits` produces for a reading of 84 against a limit of 80 with
the default thresholds). -/
def c2WarningViolation : Violation :=
  { vtype := "cpu"
    currentValue := 84
    limit := 80
    severity := Severity.warning
    message := VMessage.cpuExceeds 84 80
    timestamp := 100
    critical := false }

/-- A collector whose cached snapshot holds a previous tick's readings. -/
def c4PriorCache : Collector :=
  { metrics := { zeroSystemMetrics with timestamp := 50, cpuUsage := 50 } }

/-- A collection tick on which every probe accessor fails. -/
def c4FailingTick : CollectorProbe :=
  { cpuPercent := none
    cpuCounts := none
    virtualMemory := none
    diskUsage := none
    netCounters := none }

/-- A running execution with no cancellation pending. -/
def c5RunningExecution : ExecutionState :=
  { status := ExecutionStatus.running
    errorMessage := none
    endTimeSet := false
    cancelRequested := false }

/-- An orchestrator holding one running execution under id "a". -/
def c5Orchestrator : Orchestrator :=
  { executions := [("a", c5RunningExecution)] }

/-! ## Shared helper lemmas -/

/-- A violation whose timestamp is within the retention hour survives its
own recording. -/
theorem mem_recordViolation_self (now : ℚ) (vs : List Violation)
    (v : Violation) (h : now - 3600 < v.timestamp) :
    v ∈ recordViolation now vs v := by
  unfold recordViolation
  simp [List.mem_filter, h]

/-- Recording another violation keeps every in-window member of the ring. -/
theorem mem_recordViolation_of_mem (now : ℚ) (vs : List Violation)
    (v w : Violation) (hw : w ∈ vs) (h : now - 3600 < w.timestamp) :
    w ∈ recordViolation now vs v := by
  unfold recordViolation
  simp [List.mem_filter, List.mem_append, hw, h]

/-- List-level core of `findExecution_setExecution`. -/
theorem lookup_setExecutionList (id : String) (e' : ExecutionState)
    (l : List (String × ExecutionState))
    (h : (lookupExecution l id).isSome) :
    lookupExecution (setExecutionList l id e') id = some e' := by
  induction l with
  | nil => simp [lookupExecution] at h
  | cons p rest ih =>
      by_cases hp : p.1 = id
      · simp [lookupExecution, setExecutionList, hp]
      · simp only [lookupExecution, setExecutionList, if_neg hp] at h ⊢
        exact ih h

/-- Updating an id that is present makes subsequent lookups return the new
record. -/
theorem findExecution_setExecution (o : Orchestrator) (id : String)
    (e' : ExecutionState) (h : (findExecution o id).isSome) :
    findExecution (setExecution o id e') id = some e' := by
  unfold findExecution setExecution at *
  exact lookup_setExecutionList id e' o.executions h

/-- The allocation loop appends exactly its requested chunks. -/
theorem allocLoop_eq (n : Nat) (chunkBytes : Nat) (acc : List Nat) :
    allocLoop n chunkBytes acc = acc ++ List.replicate n chunkBytes := by
  induction n generalizing acc with
  | zero => simp [allocLoop]
  | succ k ih =>
      rw [allocLoop, ih, List.replicate_succ]
      simp

/-- The temperature step never requests a violation-rate stop. -/
theorem tooMany_not_mem_temperaturePhase (now : ℚ) (temp : Option ℚ)
    (vs : List Violation) (n : Nat) :
    StopReason.tooManyViolations n ∉ (temperaturePhase now temp vs).2 := by
  unfold temperaturePhase
  cases temp with
  | none => simp
  | some t => by_cases h : t > 85 <;> simp [h]

/-- For a reading above 85 the temperature step's stop requests are exactly
the critical-temperature stop when the reading is above 90, nothing
otherwise. -/
theorem temperaturePhase_stops (now t : ℚ) (vs : List Violation)
    (h85 : 85 < t) :
    (temperaturePhase now (some t) vs).2
      = if 90 < t then [StopReason.criticalTemperature t] else [] := by
  simp only [temperaturePhase, if_pos h85, temperatureViolation]
  by_cases h : (90 : ℚ) < t <;> simp [h]

/-! ## Claim theorems -/

/-- Claim C1, counterexample.  With the execution context created (at time 0)
before the plugin goroutine reaches its select (at time 1/1000) and a
2-second duration, `executeFullIntensity` returns the context's
deadline-exceeded error at the hard deadline; the orchestrator's finish logic
then marks the execution Failed, not Completed, even though no StopTest or
EmergencyStop happened and the plugin reported no error other than the
cancellation itself. -/
theorem c1_deadline_yields_failed_counterexample :
    executeFullIntensityAtDeadline 0 (1 / 1000) 2
        = some "context deadline exceeded"
    ∧ (executeTestRun newExecution true none
          (executeFullIntensityAtDeadline 0 (1 / 1000) 2)
          CtxErr.deadlineExceeded).1.status = ExecutionStatus.failed
    ∧ (executeTestRun newExecution true none
          (executeFullIntensityAtDeadline 0 (1 / 1000) 2)
          CtxErr.deadlineExceeded).1.status ≠ ExecutionStatus.completed := by
  have h : executeFullIntensityAtDeadline 0 (1 / 1000) 2
      = some "context deadline exceeded" := by
    unfold executeFullIntensityAtDeadline
    rw [if_pos (by norm_num)]
    rfl
  refine ⟨h, ?_, ?_⟩
  · rw [h]
    rfl
  · rw [h]
    decide

/-- Claim C1, amended.  When the execution context's error is
DeadlineExceeded (deadline cancellation, no StopTest or EmergencyStop), an
execution whose plugin returns any non-nil error — including the
cancellation error itself — is transitioned to Failed with that error as
message; the orchestrator transitions to Completed exactly when the plugin
returns nil. -/
theorem c1_deadline_status_amended (e : ExecutionState) (msg : String)
    (ctxErr : CtxErr) (h : ctxErr = CtxErr.deadlineExceeded) :
    (executeTestRun e true none (some msg) ctxErr).1.status
        = ExecutionStatus.failed
    ∧ (executeTestRun e true none (some msg) ctxErr).1.errorMessage = some msg
    ∧ (executeTestRun e true none none ctxErr).1.status
        = ExecutionStatus.completed := by
  subst h
  simp [executeTestRun, executePlugin, executeTestFinish, finishTestWithError,
    finishTestWithStatus]

/-- Claim C1, witness for the amended theorem at a concrete input. -/
theorem c1_deadline_status_amended_witness :
    (executeTestRun newExecution true none (some "context deadline exceeded")
        CtxErr.deadlineExceeded).1.status = ExecutionStatus.failed
    ∧ (executeTestRun newExecution true none (some "context deadline exceeded")
        CtxErr.deadlineExceeded).1.errorMessage
        = some "context deadline exceeded"
    ∧ (executeTestRun newExecution true none none
        CtxErr.deadlineExceeded).1.status = ExecutionStatus.completed :=
  c1_deadline_status_amended newExecution "context deadline exceeded"
    CtxErr.deadlineExceeded rfl

/-- Claim C6.  When the plugin's Initialize returns an error (and the
execution context is not cancelled by a concurrent StopTest), the execution
finishes Failed with that error as message, and neither Execute nor Cleanup
is invoked: `ExecutePlugin` returns before installing the deferred Cleanup. -/
theorem c6_initialize_error_fails_without_cleanup (e : ExecutionState)
    (initMsg : String) (execErr : Option String) (ctxErr : CtxErr)
    (h : ctxErr ≠ CtxErr.canceled) :
    (executeTestRun e true (some initMsg) execErr ctxErr).1.status
        = ExecutionStatus.failed
    ∧ (executeTestRun e true (some initMsg) execErr ctxErr).1.errorMessage
        = some initMsg
    ∧ PluginCall.executeCall ∉ (executeTestRun e true (some initMsg) execErr ctxErr).2
    ∧ PluginCall.cleanupCall ∉ (executeTestRun e true (some initMsg) execErr ctxErr).2 := by
  simp [executeTestRun, executePlugin, executeTestFinish, finishTestWithError, h]

/-- Claim C6, witness at a concrete input. -/
theorem c6_initialize_error_fails_without_cleanup_witness :
    (executeTestRun newExecution true (some "invalid alloc_size") none
        CtxErr.noErr).1.status = ExecutionStatus.failed
    ∧ (executeTestRun newExecution true (some "invalid alloc_size") none
        CtxErr.noErr).1.errorMessage = some "invalid alloc_size"
    ∧ PluginCall.executeCall ∉ (executeTestRun newExecution true
        (some "invalid alloc_size") none CtxErr.noErr).2
    ∧ PluginCall.cleanupCall ∉ (executeTestRun newExecution true
        (some "invalid alloc_size") none CtxErr.noErr).2 :=
  c6_initialize_error_fails_without_cleanup newExecution "invalid alloc_size"
    none CtxErr.noErr (by decide)

/-- Claim C7.  On a plugin that was never initialised, the first Cleanup
completes without fault, but a second Cleanup faults: both the CPU and the
memory plugin's Cleanup unconditionally run `close(stopChan)`, and closing an
already-closed channel is a Go runtime panic. -/
theorem c7_cleanup_second_call_faults :
    cpuCleanup newCPUStressPlugin
        = Except.ok { stopChan := { closed := true } }
    ∧ cpuCleanup { stopChan := { closed := true } }
        = Except.error "close of closed channel"
    ∧ memoryCleanup newMemoryStressPlugin
        = Except.ok { stopChan := { closed := true }, allocations := [] }
    ∧ memoryCleanup { stopChan := { closed := true }, allocations := [] }
        = Except.error "close of closed channel" :=
  ⟨rfl, rfl, rfl, rfl⟩

/-- Claim C8, counterexample.  With alloc_size 100 MB and chunk_size 64 MB a
completed allocation phase allocates 1 chunk (Go integer division), not the
ceil(100/64) = 2 chunks the claim states. -/
theorem c8_alloc_chunks_counterexample :
    (memoryExecuteAllocations 100 64).length = 1
    ∧ ceilDiv 100 64 = 2
    ∧ (memoryExecuteAllocations 100 64).length ≠ ceilDiv 100 64 := by
  decide

/-- Claim C8, amended.  A completed allocation phase allocates
`max 1 (alloc_size / chunk_size)` chunks — floor division, bumped to one
chunk when the quotient is zero — each of exactly the configured chunk size
in bytes. -/
theorem c8_alloc_chunks_amended (allocSizeMB chunkSizeMB : Nat)
    (_hc : 0 < chunkSizeMB) :
    (memoryExecuteAllocations allocSizeMB chunkSizeMB).length
        = max 1 (allocSizeMB / chunkSizeMB)
    ∧ (memoryExecuteAllocations allocSizeMB chunkSizeMB).all
        (fun chunkBytes => chunkBytes == chunkSizeMB * 1024 * 1024) = true := by
  unfold memoryExecuteAllocations
  rw [allocLoop_eq, List.nil_append]
  constructor
  · rw [List.length_replicate]
    simp only [numChunksFor]
    rcases Nat.eq_zero_or_pos (allocSizeMB / chunkSizeMB) with h0 | hpos
    · rw [h0]
      simp
    · rw [if_neg (by omega)]
      exact (max_eq_right hpos).symm
  · simp [List.all_eq_true, List.mem_replicate]

/-- Claim C8, witness for the amended theorem at a concrete input. -/
theorem c8_alloc_chunks_amended_witness :
    (memoryExecuteAllocations 100 64).length = max 1 (100 / 64)
    ∧ (memoryExecuteAllocations 100 64).all
        (fun chunkBytes => chunkBytes == 64 * 1024 * 1024) = true :=
  c8_alloc_chunks_amended 100 64 (by decide)

/-- Claim C9, counterexample.  A configured read_write_ratio of 0.0 is not
positive, so Initialize replaces it with the default 0.5; a mixed-mode
operation whose time-based draw is 0.25 then comes out as a read, although
the claim says every operation is a write. -/
theorem c9_ratio_zero_counterexample :
    initializeReadWriteRat 0 = 1 / 2
    ∧ performIOOperationKind "mixed" (initializeReadWriteRat 0) 250
        = some IOOperationKind.read := by
  have h0 : initializeReadWriteRat 0 = 1 / 2 := by
    norm_num [initializeReadWriteRat]
  refine ⟨h0, ?_⟩
  rw [h0]
  norm_num [performIOOperationKind]

/-- Claim C9, amended.  With read_write_ratio 1.0 every mixed-mode operation
is a read (the draw is always strictly below 1).  With a configured ratio of
0.0, Initialize substitutes the default 0.5, and a mixed-mode operation is a
read exactly when the time-based draw is below 0.5 — so writes and reads
both occur, not only writes. -/
theorem c9_mixed_ratio_amended (t : Nat) :
    performIOOperationKind "mixed" (initializeReadWriteRat 1) t
        = some IOOperationKind.read
    ∧ (performIOOperationKind "mixed" (initializeReadWriteRat 0) t
          = some IOOperationKind.read
        ↔ ((t % 1000 : Nat) : ℚ) / 1000 < 1 / 2) := by
  have hmod : ((t % 1000 : Nat) : ℚ) < 1000 := by
    have h : t % 1000 < 1000 := Nat.mod_lt _ (by norm_num)
    exact_mod_cast h
  have hlt1 : ((t % 1000 : Nat) : ℚ) / 1000 < 1 := by
    rw [div_lt_one (by norm_num)]
    exact hmod
  have h1 : initializeReadWriteRat 1 = 1 := by
    norm_num [initializeReadWriteRat]
  have h0 : initializeReadWriteRat 0 = 1 / 2 := by
    norm_num [initializeReadWriteRat]
  constructor
  · simp [performIOOperationKind, h1, hlt1]
  · by_cases hc : ((t % 1000 : Nat) : ℚ) / 1000 < 1 / 2 <;>
      simp [performIOOperationKind, h0, hc]

/-- Claim C2, counterexample.  With six Warning-severity violations recorded
in the last minute and the default threshold of 5, a safety-check tick
raises the too-many-violations emergency stop although the number of Error-
or Critical-severity violations in the window is zero: the rate gate counts
violations of every severity. -/
theorem c2_rate_gate_counterexample :
    (performSafetyCheck defaultSafetyConfig 100 none 0 0
        (List.replicate 6 c2WarningViolation)).2
      = [StopReason.tooManyViolations 6]
    ∧ ((List.replicate 6 c2WarningViolation).filter
        (fun v => v.severity == Severity.error
          || v.severity == Severity.critical)).length
      ≤ defaultSafetyConfig.maxViolationsPerMin := by
  have hrec : getRecentViolations 60 100 (List.replicate 6 c2WarningViolation)
      = List.replicate 6 c2WarningViolation := by
    unfold getRecentViolations
    refine List.filter_eq_self.mpr (fun a ha => ?_)
    rw [List.eq_of_mem_replicate ha]
    exact decide_eq_true (by norm_num [c2WarningViolation])
  constructor
  · have htp : temperaturePhase 100 none (List.replicate 6 c2WarningViolation)
        = (List.replicate 6 c2WarningViolation, []) := rfl
    simp only [performSafetyCheck, htp]
    rw [hrec, List.length_replicate]
    norm_num [defaultSafetyConfig]
  · decide

/-- Claim C2, amended.  On a safety-check tick the Monitor requests the
too-many-violations emergency stop exactly when the number of violations of
any severity — Warning and Info included — recorded within the last 60
seconds (the temperature violation of the same tick included) exceeds
`max_violations_per_min`, and the reported count N is that total. -/
theorem c2_rate_gate_counts_all_severities (cfg : SafetyConfig) (now : ℚ)
    (temp : Option ℚ) (memSys heapAlloc : Nat) (vs : List Violation)
    (n : Nat) :
    StopReason.tooManyViolations n
        ∈ (performSafetyCheck cfg now temp memSys heapAlloc vs).2
      ↔ n = (getRecentViolations 60 now (temperaturePhase now temp vs).1).length
        ∧ (getRecentViolations 60 now (temperaturePhase now temp vs).1).length
            > cfg.maxViolationsPerMin := by
  have hnm := tooMany_not_mem_temperaturePhase now temp vs n
  simp only [performSafetyCheck, List.mem_append]
  constructor
  · rintro (h | h)
    · exact absurd h hnm
    · revert h
      split
      · rename_i hgt
        intro h
        simp only [List.mem_singleton] at h
        cases h
        exact ⟨rfl, hgt⟩
      · intro h
        simp at h
  · rintro ⟨hn, hgt⟩
    subst hn
    right
    simp [hgt]

/-- Claim C3, counterexample.  At 87 °C the Monitor records a temperature
violation whose Severity field is Critical, not Warning; at exactly 85 °C it
records nothing at all (the threshold is strict); at exactly 90 °C it records
a violation but raises no emergency stop (that threshold is strict too). -/
theorem c3_temperature_severity_counterexample :
    ((performSafetyCheck defaultSafetyConfig 100 (some 87) 0 0 []).1
        = [temperatureViolation 100 87]
      ∧ (temperatureViolation 100 87).severity ≠ Severity.warning)
    ∧ (performSafetyCheck defaultSafetyConfig 100 (some 85) 0 0 []).1 = []
    ∧ (performSafetyCheck defaultSafetyConfig 100 (some 90) 0 0 []).2 = [] := by
  refine ⟨⟨?_, ?_⟩, ?_, ?_⟩
  · norm_num [performSafetyCheck, temperaturePhase, recordViolation,
      getRecentViolations, temperatureViolation, defaultSafetyConfig]
  · decide
  · norm_num [performSafetyCheck, temperaturePhase]
  · norm_num [performSafetyCheck, temperaturePhase, recordViolation,
      getRecentViolations, temperatureViolation, defaultSafetyConfig]

/-- Claim C3, amended.  On every safety-check tick whose temperature reading
is strictly above 85 °C, the Monitor records a temperature violation whose
Severity field is always Critical (never Warning); its `Critical` flag is set
exactly when the reading is strictly above 90 °C, and the emergency stop with
the temperature-specific reason is raised exactly in that case.  A reading of
85 °C or less records no temperature violation. -/
theorem c3_temperature_check_amended (cfg : SafetyConfig) (now t : ℚ)
    (memSys heapAlloc : Nat) (vs : List Violation) (h85 : 85 < t) :
    temperatureViolation now t
        ∈ (performSafetyCheck cfg now (some t) memSys heapAlloc vs).1
    ∧ (temperatureViolation now t).severity = Severity.critical
    ∧ ((temperatureViolation now t).critical = true ↔ 90 < t)
    ∧ (StopReason.criticalTemperature t
          ∈ (performSafetyCheck cfg now (some t) memSys heapAlloc vs).2
        ↔ 90 < t) := by
  have htv : now - 3600 < (temperatureViolation now t).timestamp := by
    simp only [temperatureViolation]
    linarith
  have hmem1 : temperatureViolation now t
      ∈ (temperaturePhase now (some t) vs).1 := by
    simp only [temperaturePhase, if_pos h85]
    exact mem_recordViolation_self now vs _ htv
  refine ⟨?_, rfl, ?_, ?_⟩
  · simp only [performSafetyCheck]
    split
    · split
      · exact mem_recordViolation_of_mem now _ _ _ hmem1 htv
      · exact hmem1
    · exact hmem1
  · simp only [temperatureViolation]
    simp
  · simp only [performSafetyCheck, List.mem_append]
    rw [temperaturePhase_stops now t vs h85]
    constructor
    · rintro (h | h)
      · revert h
        split
        · rename_i h90
          intro _
          exact h90
        · intro h
          simp at h
      · revert h
        split <;> simp
    · intro h90
      left
      simp [h90]

/-- Claim C3, witness for the amended theorem at 95 °C. -/
theorem c3_temperature_check_amended_witness :
    temperatureViolation 100 95
        ∈ (performSafetyCheck defaultSafetyConfig 100 (some 95) 0 0 []).1
    ∧ (temperatureViolation 100 95).severity = Severity.critical
    ∧ ((temperatureViolation 100 95).critical = true ↔ (90 : ℚ) < 95)
    ∧ (StopReason.criticalTemperature 95
          ∈ (performSafetyCheck defaultSafetyConfig 100 (some 95) 0 0 []).2
        ↔ (90 : ℚ) < 95) :=
  c3_temperature_check_amended defaultSafetyConfig 100 95 0 0 []
    (by norm_num)

/-- Claim C4, counterexample.  On a tick where every probe accessor fails,
the cached snapshot is replaced (fresh timestamp, zeroed readings), so it is
not identical to the snapshot cached before the tick. -/
theorem c4_probe_failure_overwrites_counterexample :
    getMetrics (collectSystemMetrics 55 c4FailingTick c4PriorCache)
        ≠ getMetrics c4PriorCache
    ∧ (getMetrics c4PriorCache).cpuUsage = 50
    ∧ (getMetrics (collectSystemMetrics 55 c4FailingTick c4PriorCache)).cpuUsage
        = 0 := by
  decide

/-- Claim C4, amended.  Every collection tick replaces the cached snapshot
with one built from that tick's readings alone: fields of failed accessors
carry the Go zero value, fields of successful accessors the new readings, and
the result does not depend on the previously cached snapshot. -/
theorem c4_collect_overwrites_with_fresh_snapshot (now : ℚ)
    (pr : CollectorProbe) (c c' : Collector) :
    getMetrics (collectSystemMetrics now pr c) = freshSnapshot now pr
    ∧ collectSystemMetrics now pr c = collectSystemMetrics now pr c' := by
  obtain ⟨cp, cc, vm, du, nc⟩ := pr
  constructor
  · cases cp <;> cases cc <;> cases vm <;> cases du <;> cases nc <;> rfl
  · cases cp <;> cases cc <;> cases vm <;> cases du <;> cases nc <;> rfl

/-- Claim C5.  StopTest returns the not-found error for ids absent from the
executions map and the not-running error for executions whose status is not
Running; after a first successful StopTest on a running execution and the
workload's observation of the cancellation (which transitions the execution
to Stopped), every further StopTest on that id returns the not-running error
with status Stopped. -/
theorem c5_stop_test_errors (o : Orchestrator) (id : String) :
    (findExecution o id = none → (stopTest o id).1 = StopTestResult.notFound)
    ∧ (∀ e : ExecutionState, findExecution o id = some e →
        e.status ≠ ExecutionStatus.running →
        (stopTest o id).1 = StopTestResult.notRunning e.status)
    ∧ (∀ e : ExecutionState, findExecution o id = some e →
        e.status = ExecutionStatus.running →
        (stopTest o id).1 = StopTestResult.ok
        ∧ (stopTest (workloadObservesCancel (stopTest o id).2 id) id).1
            = StopTestResult.notRunning ExecutionStatus.stopped) := by
  refine ⟨?_, ?_, ?_⟩
  · intro h
    simp [stopTest, h]
  · intro e he hne
    simp [stopTest, he, hne]
  · intro e he hr
    obtain ⟨st, em, ets, cr⟩ := e
    change st = ExecutionStatus.running at hr
    subst hr
    have h1 : stopTest o id
        = (StopTestResult.ok, setExecution o id
            ⟨ExecutionStatus.running, em, ets, true⟩) := by
      simp [stopTest, he]
    refine ⟨by rw [h1], ?_⟩
    rw [h1]
    have hf1 : findExecution
        (setExecution o id ⟨ExecutionStatus.running, em, ets, true⟩) id
        = some ⟨ExecutionStatus.running, em, ets, true⟩ :=
      findExecution_setExecution o id _ (by rw [he]; rfl)
    have h2 : workloadObservesCancel
        (setExecution o id ⟨ExecutionStatus.running, em, ets, true⟩) id
        = setExecution
            (setExecution o id ⟨ExecutionStatus.running, em, ets, true⟩) id
            ⟨ExecutionStatus.stopped, em, true, true⟩ := by
      simp [workloadObservesCancel, hf1, executeTestFinish, ctxErrMessage,
        finishTestWithStatus]
    rw [h2]
    have hf2 : findExecution
        (setExecution
          (setExecution o id ⟨ExecutionStatus.running, em, ets, true⟩) id
          ⟨ExecutionStatus.stopped, em, true, true⟩) id
        = some ⟨ExecutionStatus.stopped, em, true, true⟩ :=
      findExecution_setExecution _ id _ (by rw [hf1]; rfl)
    simp [stopTest, hf2]

/-- Claim C5, witness on a one-execution orchestrator. -/
theorem c5_stop_test_errors_witness :
    (stopTest c5Orchestrator "a").1 = StopTestResult.ok
    ∧ (stopTest (workloadObservesCancel (stopTest c5Orchestrator "a").2 "a")
        "a").1 = StopTestResult.notRunning ExecutionStatus.stopped :=
  (c5_stop_test_errors c5Orchestrator "a").2.2 c5RunningExecution rfl rfl

/-- Claim C10.  A single `CheckSafetyLimits` call returns the violation of
the first metric, in the fixed order CPU, memory, disk, network, whose read
succeeded and whose reading exceeds its limit (`firstBreachName`); it records
exactly that violation and nothing else; and its result does not depend on
the temperature reading, which the operation never examines. -/
theorem c10_check_safety_limits_priority (cfg : SafetyConfig)
    (limits : SafetyLimits) (pr : ProbeReadings) (now : ℚ)
    (vs : List Violation) (t : Option ℚ) :
    ((checkSafetyLimits cfg limits pr now vs).1.map (fun v => v.vtype)
        = firstBreachName limits pr)
    ∧ ((checkSafetyLimits cfg limits pr now vs).2
        = match (checkSafetyLimits cfg limits pr now vs).1 with
          | some v => recordViolation now vs v
          | none => vs)
    ∧ checkSafetyLimits cfg limits { pr with temperature := t } now vs
        = checkSafetyLimits cfg limits pr now vs := by
  obtain ⟨c, m, d, n, tp⟩ := pr
  refine ⟨?_, ?_, ?_⟩
  · cases c <;> cases m <;> cases d <;> cases n <;>
      simp only [checkSafetyLimits, checkMemoryLimit, checkDiskLimit,
        checkNetworkLimit, firstBreachName, breachName] <;>
      (try split_ifs) <;>
      simp [cpuViolation, memoryViolation, diskViolation, networkViolation]
  · cases c <;> cases m <;> cases d <;> cases n <;>
      simp only [checkSafetyLimits, checkMemoryLimit, checkDiskLimit,
        checkNetworkLimit] <;>
      (try split_ifs) <;> rfl
  · rfl

end SSTS
